import Mathlib

/-!
Shallow embedding of the notebook
"11 - Sentiment Analysis - Unsupervised Lexical Models.ipynb".

The notebook loads a CSV of movie reviews, slices a test split at row
35000, scores each review with three third-party lexicon scorers
(TextBlob polarity, AFINN score, VADER compound score), maps each score
to a binary label with a fixed cutoff (0.1 for TextBlob, 1.0 for AFINN,
0.4 for VADER as invoked), and reports metrics.

Real-valued scores are embedded as rationals.  The third-party scorers
are not part of this repository, so the pipelines are parametrized over
an arbitrary score function; where a claim needs a concrete scorer, a
lexicon scorer is modelled from the spec (section 4.1).
-/

namespace SentimentNotebook

/-- A dataset row: the `review` text column and the `sentiment` label
column of `movie_reviews.csv.bz2`. -/
structure Row where
  review : String
  sentiment : String
deriving DecidableEq, Repr

/-- `test_reviews = dataset['review'].values[35000:]` (notebook cell 4). -/
def test_reviews (dataset : List Row) : List String :=
  (dataset.map Row.review).drop 35000

/-- `test_sentiments = dataset['sentiment'].values[35000:]` (notebook cell 4). -/
def test_sentiments (dataset : List Row) : List String :=
  (dataset.map Row.sentiment).drop 35000

/-- The fixed-cutoff binary classifier used in cells 9, 15 and inside
`analyze_sentiment_vader_lexicon`: `'positive' if score >= cutoff else
'negative'`. -/
def thresholdLabel (cutoff score : ℚ) : String :=
  if score ≥ cutoff then "positive" else "negative"

/-- `sentiment_polarity = [<scorer>(review) for review in test_reviews]`
(cells 8 and 15), parametrized over the third-party scorer. -/
def sentiment_polarity (polarity : String → ℚ) (reviews : List String) : List ℚ :=
  reviews.map polarity

/-- `predicted_sentiments = ['positive' if score >= 0.1 else 'negative'
for score in sentiment_polarity]` (cell 9, TextBlob pipeline). -/
def predicted_sentiments_textblob (polarity : String → ℚ)
    (reviews : List String) : List String :=
  (sentiment_polarity polarity reviews).map
    (fun score => if score ≥ (1/10 : ℚ) then "positive" else "negative")

/-- `predicted_sentiments = ['positive' if score >= 1.0 else 'negative'
for score in sentiment_polarity]` (cell 15, AFINN pipeline). -/
def predicted_sentiments_afinn (score : String → ℚ)
    (reviews : List String) : List String :=
  (sentiment_polarity score reviews).map
    (fun s => if s ≥ (1 : ℚ) then "positive" else "negative")

/-! ### VADER pipeline: preprocessing helpers and the wrapper function

`strip_html_tags`, `remove_accented_chars` and `expand_contractions` are
defined in notebook cell 20, but their bodies delegate to library code
(BeautifulSoup, unicodedata, contractions) that is not in this
repository; the models below capture their documented effect. -/

/-- Character-level tag removal: outside a tag, `<` enters tag state;
inside a tag, `>` leaves it; tag characters are dropped. -/
def stripTagsAux : Bool → List Char → List Char
  | _, [] => []
  | false, c :: cs =>
    if c = '<' then stripTagsAux true cs else c :: stripTagsAux false cs
  | true, c :: cs =>
    if c = '>' then stripTagsAux false cs else stripTagsAux true cs

/-- Modelled from the spec: `strip_html_tags` (cell 20) extracts the text
of the review with BeautifulSoup, dropping HTML markup; the parsing
library is not in this repository, so tag removal is modelled as dropping
every angle-bracket tag. -/
def strip_html_tags (text : String) : String :=
  ⟨stripTagsAux false text.data⟩

/-- Modelled from the spec: `remove_accented_chars` (cell 20) normalizes
to NFKD and keeps only the ASCII encoding; `unicodedata` is not in this
repository, so it is modelled as keeping the ASCII characters. -/
def remove_accented_chars (text : String) : String :=
  ⟨text.data.filter (fun c => c.toNat < 128)⟩

/-- Representative contraction table of the `contractions` library. -/
def contractionsTable : List (String × String) :=
  [("don\x27t", "do not"), ("can\x27t", "cannot"),
   ("won\x27t", "will not"), ("it\x27s", "it is"), ("I\x27m", "I am")]

/-- Split a character sequence at every space, keeping empty segments,
as `text.split(" ")` does; `cur` holds the current segment reversed. -/
def splitSpaces : List Char → List Char → List String
  | [], cur => [⟨cur.reverse⟩]
  | c :: cs, cur =>
    if c = ' ' then ⟨cur.reverse⟩ :: splitSpaces cs []
    else splitSpaces cs (c :: cur)

/-- Join segments back with single spaces. -/
def joinSpaces : List String → String
  | [] => ""
  | [w] => w
  | w :: ws => w ++ " " ++ joinSpaces ws

/-- Modelled from the spec: `expand_contractions` (cell 20) calls
`contractions.fix`; the library is not in this repository, so it is
modelled as a word-by-word substitution from a fixed table. -/
def expand_contractions (text : String) : String :=
  joinSpaces ((splitSpaces text.data []).map
    (fun w => (((contractionsTable.find? (fun p => p.1 = w)).map Prod.snd).getD w)))

/-- The full preprocessing applied inside the VADER wrapper, in source
order: strip HTML tags, then remove accented characters, then expand
contractions (cell 21, first three statements). -/
def vader_preprocess (review : String) : String :=
  expand_contractions (remove_accented_chars (strip_html_tags review))

/-- The four statistics returned by VADER's
`SentimentIntensityAnalyzer().polarity_scores`. -/
structure PolarityScores where
  pos : ℚ
  neg : ℚ
  neu : ℚ
  compound : ℚ
deriving DecidableEq, Repr

/-- `analyze_sentiment_vader_lexicon` (cell 21), parametrized over the
third-party analyzer `polarity_scores`.  It preprocesses the review,
takes the compound score, and thresholds it; default threshold `0.1` as
in the source.  The `verbose` branch only prints statistics and does not
affect the returned label, so it is not modelled. -/
def analyze_sentiment_vader_lexicon (polarity_scores : String → PolarityScores)
    (review : String) (threshold : ℚ := 1/10) (verbose : Bool := false) : String :=
  let review := strip_html_tags review
  let review := remove_accented_chars review
  let review := expand_contractions review
  let scores := polarity_scores review
  let agg_score := scores.compound
  let final_sentiment := if agg_score ≥ threshold then "positive" else "negative"
  final_sentiment

/-- `predicted_sentiments = [analyze_sentiment_vader_lexicon(review,
threshold=0.4, verbose=False) for review in test_reviews]` (cell 24). -/
def predicted_sentiments_vader (polarity_scores : String → PolarityScores)
    (reviews : List String) : List String :=
  reviews.map (fun review =>
    analyze_sentiment_vader_lexicon polarity_scores review (2/5) false)

/-! ### A lexicon scorer modelled from the spec

The polarity scorers themselves (TextBlob / pattern lexicon, AFINN,
VADER) live in imported third-party libraries, not in this repository.
Spec section 4.1 describes the scorer: a static word→score table, a
tokenizer, a negation/intensifier adjustment pass for adjacent modifier
words, and an aggregation, with unknown words contributing zero. -/

/-- Tokenizer: lowercase the text and split it into maximal alphabetic
words, discarding punctuation and whitespace.  `cur` holds the current
word reversed. -/
def tokenizeAux : List Char → List Char → List String
  | [], cur => if cur = [] then [] else [⟨cur.reverse⟩]
  | c :: cs, cur =>
    if c.isAlpha then tokenizeAux cs (c.toLower :: cur)
    else if cur = [] then tokenizeAux cs []
    else ⟨cur.reverse⟩ :: tokenizeAux cs []

/-- Token sequence of a text. -/
def tokenize (text : String) : List String :=
  tokenizeAux text.data []

/-- Modelled from the spec: representative entries of the static
word→score lexicon table (the lexicon files ship with the third-party
libraries, not with this repository); polarity scores lie in `[-1, 1]`
as in the TextBlob/pattern lexicon. -/
def lexicon : List (String × ℚ) :=
  [("stupid", -(4/5)), ("bad", -(7/10)), ("worst", -1), ("awful", -1),
   ("good", 7/10), ("great", 4/5), ("excellent", 1), ("nice", 3/5)]

/-- Negator words: a word right after one of these has its polarity
flipped (spec section 4.1, "negation flips"). -/
def negators : List String := ["not", "no", "never"]

/-- Intensifier words with their multipliers (spec section 4.1,
"intensifier multipliers for adjacent modifier words"). -/
def intensifiers : List (String × ℚ) :=
  [("very", 13/10), ("really", 13/10), ("extremely", 3/2)]

/-- Polarity of a single word: its lexicon entry, or zero for a word not
in the lexicon (spec section 4.1, "unknown words contribute zero"). -/
def wordPolarity (w : String) : ℚ :=
  (((lexicon.find? (fun p => p.1 = w)).map Prod.snd).getD 0)

/-- Intensity multiplier carried by a word: its intensifier entry, or
the neutral multiplier `1`. -/
def intensity (w : String) : ℚ :=
  (((intensifiers.find? (fun p => p.1 = w)).map Prod.snd).getD 1)

/-- Contribution of word `w` when the preceding token is `prev`: the
polarity is flipped after a negator and scaled after an intensifier. -/
def contribution (prev w : String) : ℚ :=
  if negators.contains prev then -(wordPolarity w)
  else intensity prev * wordPolarity w

/-- Aggregate score of a token sequence, scanning left to right with the
preceding token `prev` (initially the empty string). -/
def scoreFrom (prev : String) : List String → ℚ
  | [] => 0
  | w :: ws => contribution prev w + scoreFrom w ws

/-- Modelled from the spec: the lexicon polarity scorer of spec section
4.1 (the role TextBlob\x27s `.sentiment.polarity` plays in cells 8 and 9;
the library implementation is not in this repository): tokenize, then
aggregate word polarities with the negation/intensifier pass. -/
def textblob_polarity (text : String) : ℚ :=
  scoreFrom "" (tokenize text)

/-! ### Error propagation model

The notebook contains no `try`/`except`: each pipeline is a plain list
comprehension over library calls, so an exception raised by a library
call on some review aborts the whole cell and no result list is
produced.  This is embedded by running the scoring loop in `Except`:
a raising scorer returns `Except.error`. -/

/-- The scoring loop `[f(review) for review in reviews]` run over a
fallible scorer: the first raised exception aborts the loop, as an
uncaught Python exception aborts the cell. -/
def mapExceptScores (f : String → Except String ℚ) : List String → Except String (List ℚ)
  | [] => Except.ok []
  | r :: rs =>
    match f r with
    | Except.error e => Except.error e
    | Except.ok v =>
      match mapExceptScores f rs with
      | Except.error e => Except.error e
      | Except.ok vs => Except.ok (v :: vs)

/-- Whether a fallible run produced a result list. -/
def isOkRun : Except String (List ℚ) → Bool
  | Except.ok _ => true
  | Except.error _ => false

/-- The token preceding the end of `ts` in a scan that started with
preceding token `p`: `p` for the empty sequence, else the last token. -/
def lastFrom (p : String) : List String → String
  | [] => p
  | u :: us => lastFrom u us

/-! ### Helper lemmas -/

/-- Every intensity multiplier is positive. -/
theorem intensity_pos (w : String) : 0 < intensity w := by
  unfold intensity
  cases h : intensifiers.find? (fun p => p.1 = w) with
  | none => norm_num
  | some pr =>
    have hmem : pr ∈ intensifiers := List.mem_of_find?_eq_some h
    have hpos : ∀ x ∈ intensifiers, (0 : ℚ) < x.2 := by
      intro x hx
      fin_cases hx <;> norm_num
    simpa using hpos pr hmem

/-- After a non-negator token, the contribution of a word of nonnegative
polarity is nonnegative. -/
theorem contribution_nonneg (prev w : String)
    (hprev : negators.contains prev = false) (hw : 0 ≤ wordPolarity w) :
    0 ≤ contribution prev w := by
  unfold contribution
  rw [hprev]
  simpa using mul_nonneg (le_of_lt (intensity_pos prev)) hw

/-- Scanning a sequence extended by one word adds that word's
contribution relative to the last preceding token. -/
theorem scoreFrom_append (w : String) (ts : List String) (p : String) :
    scoreFrom p (ts ++ [w]) = scoreFrom p ts + contribution (lastFrom p ts) w := by
  induction ts generalizing p with
  | nil => simp [scoreFrom, lastFrom]
  | cons u us ih => simp [scoreFrom, lastFrom, ih u]; ring

/-- The last preceding token is the initial one or a member of the
sequence. -/
theorem lastFrom_eq_or_mem (p : String) (ts : List String) :
    lastFrom p ts = p ∨ lastFrom p ts ∈ ts := by
  induction ts generalizing p with
  | nil => simp [lastFrom]
  | cons u us ih =>
    rcases ih u with h | h
    · right; simp [lastFrom, h]
    · right; simp [lastFrom, h]

/-!  ### Claims -/

/-- Claim C1: for every score, the threshold classifier assigns the label
"positive" exactly when the score is at least the cutoff and "negative"
otherwise; in the notebook the TextBlob pipeline uses cutoff 0.1, the
AFINN pipeline cutoff 1.0, and the VADER pipeline cutoff 0.4. -/
theorem threshold_classifier_cutoffs
    (pol afn : String → ℚ) (ps : String → PolarityScores)
    (reviews : List String) (i : ℕ) (cutoff score : ℚ) :
    (thresholdLabel cutoff score = "positive" ↔ score ≥ cutoff)
    ∧ (thresholdLabel cutoff score = "negative" ↔ ¬ score ≥ cutoff)
    ∧ (predicted_sentiments_textblob pol reviews)[i]? =
        (reviews[i]?).map (fun x => thresholdLabel (1/10) (pol x))
    ∧ (predicted_sentiments_afinn afn reviews)[i]? =
        (reviews[i]?).map (fun x => thresholdLabel 1 (afn x))
    ∧ (predicted_sentiments_vader ps reviews)[i]? =
        (reviews[i]?).map (fun x =>
          thresholdLabel (2/5) ((ps (vader_preprocess x)).compound)) := by
  refine ⟨?_, ?_, ?_, ?_, ?_⟩
  · unfold thresholdLabel
    split <;> simp_all
  · unfold thresholdLabel
    split <;> simp_all
  · simp [predicted_sentiments_textblob, sentiment_polarity, thresholdLabel,
      Function.comp_def]
  · simp [predicted_sentiments_afinn, sentiment_polarity, thresholdLabel,
      Function.comp_def]
  · simp [predicted_sentiments_vader, analyze_sentiment_vader_lexicon,
      vader_preprocess, thresholdLabel]

/-- Claim C3: for a fixed scorer and threshold, scoring is a
deterministic function of the input text: equal inputs give equal scores
and equal labels, for the TextBlob/AFINN-style pipelines, for the
modelled lexicon scorer, and for the VADER wrapper. -/
theorem scoring_deterministic (pol : String → ℚ)
    (ps : String → PolarityScores) (cutoff : ℚ) (t₁ t₂ : String)
    (h : t₁ = t₂) :
    pol t₁ = pol t₂
    ∧ textblob_polarity t₁ = textblob_polarity t₂
    ∧ thresholdLabel cutoff (pol t₁) = thresholdLabel cutoff (pol t₂)
    ∧ analyze_sentiment_vader_lexicon ps t₁ cutoff =
        analyze_sentiment_vader_lexicon ps t₂ cutoff := by
  subst h
  exact ⟨rfl, rfl, rfl, rfl⟩

/-- Witness for C3 at a concrete text. -/
theorem scoring_deterministic_witness :
    textblob_polarity "good movie" = textblob_polarity "good movie"
    ∧ textblob_polarity "good movie" = textblob_polarity "good movie"
    ∧ thresholdLabel (1/10) (textblob_polarity "good movie") =
        thresholdLabel (1/10) (textblob_polarity "good movie")
    ∧ analyze_sentiment_vader_lexicon (fun _ => ⟨0, 0, 0, 0⟩) "good movie" (1/10) =
        analyze_sentiment_vader_lexicon (fun _ => ⟨0, 0, 0, 0⟩) "good movie" (1/10) :=
  scoring_deterministic textblob_polarity (fun _ => ⟨0, 0, 0, 0⟩) (1/10)
    "good movie" "good movie" rfl

/-- Claim C4: every label produced by the threshold classifier, by the
VADER wrapper, and by each of the three pipelines is one of "positive"
and "negative"; in particular the VADER wrapper returns a binary label
whatever the neutral statistic of its analyzer is. -/
theorem labels_binary (pol afn : String → ℚ) (ps : String → PolarityScores)
    (reviews : List String) (r : String) (cutoff score : ℚ) (verbose : Bool) :
    (thresholdLabel cutoff score = "positive" ∨ thresholdLabel cutoff score = "negative")
    ∧ (analyze_sentiment_vader_lexicon ps r cutoff verbose = "positive"
        ∨ analyze_sentiment_vader_lexicon ps r cutoff verbose = "negative")
    ∧ (predicted_sentiments_textblob pol reviews).all
        (fun l => l == "positive" || l == "negative") = true
    ∧ (predicted_sentiments_afinn afn reviews).all
        (fun l => l == "positive" || l == "negative") = true
    ∧ (predicted_sentiments_vader ps reviews).all
        (fun l => l == "positive" || l == "negative") = true := by
  refine ⟨?_, ?_, ?_, ?_, ?_⟩
  · unfold thresholdLabel
    split <;> simp
  · unfold analyze_sentiment_vader_lexicon
    dsimp only
    split <;> simp
  · simp only [predicted_sentiments_textblob, sentiment_polarity, List.all_eq_true,
      List.mem_map]
    rintro l ⟨s, _, rfl⟩
    split <;> simp
  · simp only [predicted_sentiments_afinn, sentiment_polarity, List.all_eq_true,
      List.mem_map]
    rintro l ⟨s, _, rfl⟩
    split <;> simp
  · simp only [predicted_sentiments_vader, List.all_eq_true, List.mem_map]
    rintro l ⟨s, _, rfl⟩
    unfold analyze_sentiment_vader_lexicon
    dsimp only
    split <;> simp

/-- Claim C5: the test split is exactly the rows from index 35000 on,
with review/label pairing preserved: the i-th test review and test
sentiment are the `review` and `sentiment` columns of row `35000 + i`,
and the split has `length - 35000` entries, so earlier rows never
appear. -/
theorem test_split_slicing (dataset : List Row) (i : ℕ) :
    (test_reviews dataset)[i]? = (dataset[35000 + i]?).map Row.review
    ∧ (test_sentiments dataset)[i]? = (dataset[35000 + i]?).map Row.sentiment
    ∧ (test_reviews dataset).length = dataset.length - 35000
    ∧ (test_sentiments dataset).length = dataset.length - 35000 := by
  refine ⟨?_, ?_, ?_, ?_⟩ <;>
    simp [test_reviews, test_sentiments, List.getElem?_drop]

/-- Claim C2: under the modelled lexicon scorer, the text
"SKIP IT! stupid movie" scores below 0.1, so the TextBlob pipeline with
cutoff 0.1 labels it "negative". -/
theorem textblob_skip_it_negative :
    textblob_polarity "SKIP IT! stupid movie" < 1/10
    ∧ predicted_sentiments_textblob textblob_polarity
        ["SKIP IT! stupid movie"] = ["negative"] := by
  have ht : tokenize "SKIP IT! stupid movie" = ["skip", "it", "stupid", "movie"] := by
    decide
  have hp : textblob_polarity "SKIP IT! stupid movie" = -(4/5) := by
    unfold textblob_polarity
    rw [ht]
    simp +decide [scoreFrom, contribution, wordPolarity, intensity,
      negators, intensifiers, lexicon, List.find?, List.contains]
  constructor
  · rw [hp]; norm_num
  · simp only [predicted_sentiments_textblob, sentiment_polarity, List.map_cons,
      List.map_nil, hp]
    norm_num

/-- Claim C6: appending a word of strictly positive lexicon polarity to
a text whose tokens contain no negator does not decrease the modelled
polarity score. -/
theorem append_positive_word_monotone (t w : String)
    (htok : tokenize (t ++ " " ++ w) = tokenize t ++ [w])
    (hneg : ∀ u ∈ tokenize t, negators.contains u = false)
    (hw : 0 < wordPolarity w) :
    textblob_polarity t ≤ textblob_polarity (t ++ " " ++ w) := by
  unfold textblob_polarity
  rw [htok, scoreFrom_append]
  have hlast : negators.contains (lastFrom "" (tokenize t)) = false := by
    rcases lastFrom_eq_or_mem "" (tokenize t) with h | h
    · rw [h]; decide
    · exact hneg _ h
  have := contribution_nonneg (lastFrom "" (tokenize t)) w hlast (le_of_lt hw)
  linarith

/-- Witness for C6: appending "excellent" to "good movie". -/
theorem append_positive_word_monotone_witness :
    textblob_polarity "good movie" ≤
      textblob_polarity ("good movie" ++ " " ++ "excellent") :=
  append_positive_word_monotone "good movie" "excellent"
    (by decide) (by decide)
    (by simp +decide [wordPolarity, lexicon, List.find?])

/-- Claim C7: the notebook catches no exception: if the scorer raises on
some review of the list, the scoring loop produces no result list but
propagates an error, while over a never-raising scorer it returns
exactly the scores of the pure loop. -/
theorem exceptions_propagate (f : String → Except String ℚ) (g : String → ℚ)
    (rs : List String) (r : String) (e : String)
    (hmem : r ∈ rs) (herr : f r = Except.error e) :
    isOkRun (mapExceptScores f rs) = false
    ∧ (∃ msg, mapExceptScores f rs = Except.error msg)
    ∧ mapExceptScores (fun x => Except.ok (g x)) rs =
        Except.ok (sentiment_polarity g rs) := by
  refine ⟨?_, ?_, ?_⟩
  · induction rs with
    | nil => cases hmem
    | cons a as ih =>
      rcases List.mem_cons.mp hmem with rfl | hmemtail
      · simp [mapExceptScores, herr, isOkRun]
      · cases hfa : f a with
        | error e2 => simp [mapExceptScores, hfa, isOkRun]
        | ok v =>
          have htail := ih hmemtail
          unfold mapExceptScores
          rw [hfa]
          cases h2 : mapExceptScores f as with
          | error e2 => simp [isOkRun]
          | ok vs => rw [h2] at htail; simp [isOkRun] at htail
  · induction rs with
    | nil => cases hmem
    | cons a as ih =>
      rcases List.mem_cons.mp hmem with rfl | hmemtail
      · exact ⟨e, by simp [mapExceptScores, herr]⟩
      · cases hfa : f a with
        | error e2 => exact ⟨e2, by simp [mapExceptScores, hfa]⟩
        | ok v =>
          obtain ⟨msg, hmsg⟩ := ih hmemtail
          exact ⟨msg, by simp [mapExceptScores, hfa, hmsg]⟩
  · clear hmem herr
    induction rs with
    | nil => simp [mapExceptScores, sentiment_polarity]
    | cons a as ih2 =>
      simp [mapExceptScores, sentiment_polarity, ih2]

/-- Witness for C7: a scorer that raises on the only review. -/
theorem exceptions_propagate_witness :
    isOkRun (mapExceptScores (fun _ => Except.error "boom") ["a"]) = false
    ∧ (∃ msg, mapExceptScores (fun _ => Except.error "boom") ["a"] =
        Except.error msg)
    ∧ mapExceptScores (fun _ => Except.ok (0 : ℚ)) ["a"] =
        Except.ok (sentiment_polarity (fun _ => (0 : ℚ)) ["a"]) :=
  exceptions_propagate (fun _ => Except.error "boom") (fun _ => (0 : ℚ))
    ["a"] "a" "boom" (List.mem_singleton.mpr rfl) rfl

/-- Claim C8: each review is scored independently: for input lists of
equal length agreeing at index `i`, every pipeline produces the same
label at index `i`, and each pipeline's output has the length of its
input. -/
theorem per_review_independence (pol afn : String → ℚ)
    (ps : String → PolarityScores) (rs₁ rs₂ : List String) (i : ℕ)
    (hlen : rs₁.length = rs₂.length) (hi : rs₁[i]? = rs₂[i]?) :
    (predicted_sentiments_textblob pol rs₁)[i]? =
      (predicted_sentiments_textblob pol rs₂)[i]?
    ∧ (predicted_sentiments_afinn afn rs₁)[i]? =
        (predicted_sentiments_afinn afn rs₂)[i]?
    ∧ (predicted_sentiments_vader ps rs₁)[i]? =
        (predicted_sentiments_vader ps rs₂)[i]?
    ∧ (predicted_sentiments_textblob pol rs₁).length = rs₁.length
    ∧ (predicted_sentiments_afinn afn rs₁).length = rs₁.length
    ∧ (predicted_sentiments_vader ps rs₁).length = rs₁.length := by
  refine ⟨?_, ?_, ?_, ?_, ?_, ?_⟩ <;>
    simp [predicted_sentiments_textblob, predicted_sentiments_afinn,
      predicted_sentiments_vader, sentiment_polarity, hi]

/-- Witness for C8 at concrete lists sharing index 0. -/
theorem per_review_independence_witness :
    (predicted_sentiments_textblob (fun _ => 0) ["a", "b"])[0]? =
      (predicted_sentiments_textblob (fun _ => 0) ["a", "c"])[0]?
    ∧ (predicted_sentiments_afinn (fun _ => 0) ["a", "b"])[0]? =
        (predicted_sentiments_afinn (fun _ => 0) ["a", "c"])[0]?
    ∧ (predicted_sentiments_vader (fun _ => ⟨0, 0, 0, 0⟩) ["a", "b"])[0]? =
        (predicted_sentiments_vader (fun _ => ⟨0, 0, 0, 0⟩) ["a", "c"])[0]?
    ∧ (predicted_sentiments_textblob (fun _ => 0) ["a", "b"]).length =
        (["a", "b"] : List String).length
    ∧ (predicted_sentiments_afinn (fun _ => 0) ["a", "b"]).length =
        (["a", "b"] : List String).length
    ∧ (predicted_sentiments_vader (fun _ => ⟨0, 0, 0, 0⟩) ["a", "b"]).length =
        (["a", "b"] : List String).length :=
  per_review_independence (fun _ => 0) (fun _ => 0) (fun _ => ⟨0, 0, 0, 0⟩)
    ["a", "b"] ["a", "c"] 0 rfl rfl

/-- Claim C9: only the VADER wrapper preprocesses the review (stripping
HTML tags, then removing accented characters, then expanding
contractions); the TextBlob and AFINN pipelines pass the raw review to
their scorers, so on an HTML-bearing review the VADER analyzer sees the
stripped text while the other scorers see the markup. -/
theorem preprocessing_only_vader (pol afn : String → ℚ)
    (ps : String → PolarityScores) (r : String) (cutoff : ℚ) :
    predicted_sentiments_textblob pol [r] = [thresholdLabel (1/10) (pol r)]
    ∧ predicted_sentiments_afinn afn [r] = [thresholdLabel 1 (afn r)]
    ∧ analyze_sentiment_vader_lexicon ps r cutoff =
        thresholdLabel cutoff ((ps (vader_preprocess r)).compound)
    ∧ vader_preprocess r =
        expand_contractions (remove_accented_chars (strip_html_tags r))
    ∧ strip_html_tags "A <br /> movie" = "A  movie"
    ∧ vader_preprocess "A <br /> movie" = "A  movie"
    ∧ "A  movie" ≠ "A <br /> movie" := by
  refine ⟨rfl, rfl, rfl, rfl, by decide, by decide, by decide⟩

/-- Claim C10: the default threshold of `analyze_sentiment_vader_lexicon`
is 0.1, and the notebook's call sites use 0.4; a review whose compound
score lies in `[0.1, 0.4)` is labelled "positive" by a default call but
"negative" by the notebook's evaluation. -/
theorem vader_default_vs_notebook_threshold (ps : String → PolarityScores)
    (r : String)
    (h1 : 1/10 ≤ (ps (vader_preprocess r)).compound)
    (h2 : (ps (vader_preprocess r)).compound < 2/5) :
    analyze_sentiment_vader_lexicon ps r = "positive"
    ∧ analyze_sentiment_vader_lexicon ps r (2/5) = "negative"
    ∧ predicted_sentiments_vader ps [r] = ["negative"] := by
  have hpre : analyze_sentiment_vader_lexicon ps r =
      thresholdLabel (1/10) ((ps (vader_preprocess r)).compound) := rfl
  have hpre2 : analyze_sentiment_vader_lexicon ps r (2/5) =
      thresholdLabel (2/5) ((ps (vader_preprocess r)).compound) := rfl
  refine ⟨?_, ?_, ?_⟩
  · rw [hpre]
    unfold thresholdLabel
    rw [if_pos (by exact h1)]
  · rw [hpre2]
    unfold thresholdLabel
    rw [if_neg (by exact not_le.mpr h2)]
  · simp only [predicted_sentiments_vader, List.map_cons, List.map_nil]
    rw [hpre2]
    unfold thresholdLabel
    rw [if_neg (by exact not_le.mpr h2)]

/-- Witness for C10 at a compound score of 0.25. -/
theorem vader_default_vs_notebook_threshold_witness :
    analyze_sentiment_vader_lexicon (fun _ => ⟨0, 0, 0, 1/4⟩) "a" = "positive"
    ∧ analyze_sentiment_vader_lexicon (fun _ => ⟨0, 0, 0, 1/4⟩) "a" (2/5) = "negative"
    ∧ predicted_sentiments_vader (fun _ => ⟨0, 0, 0, 1/4⟩) ["a"] = ["negative"] :=
  vader_default_vs_notebook_threshold (fun _ => ⟨0, 0, 0, 1/4⟩) "a"
    (by norm_num) (by norm_num)

end SentimentNotebook
